import Mathlib

/-!
Verification of the mpesa-rust client library (`src/client.rs`).

The repository's `src/` contains `client.rs` and the `payloads` module header.
The embedding below translates `client.rs` faithfully: every operation on the
`Mpesa` client is a function of the client value, a crypto backend (standing
for the `gen_security_credentials` method generated by the `MpesaSecurity`
derive macro, whose source is not under `src/`), and a network world that
answers HTTP requests.  Each operation returns its result, the list of
outbound requests it issued (in order), and the client value observed when
the call returns (the Rust methods take `&self`, so no field is written).

Parts of the crate that are referenced by `client.rs` but whose source files
are not under `src/` (the `Environment` enum, the payload/response structs in
`payloads/*.rs`, `CommandId`, `ResponseType`, `IdentifierTypes`, and the
`MpesaSecurity` derive) are modelled from the spec; each such definition
carries a doc comment saying so.
-/

/-- Modelled from the spec: `src/environment.rs` is not under `src/`.  The spec
says `Environment` is a closed enumeration `{Sandbox, Production}`. -/
inductive Environment where
  | Sandbox
  | Production
deriving DecidableEq

/-- Modelled from the spec: each environment maps to a fixed base URL
(`src/environment.rs` is not under `src/`; the concrete host strings stand for
the two fixed environment-pinned base URLs). -/
def Environment.base_url : Environment → String
  | .Sandbox => "https://sandbox.safaricom.co.ke"
  | .Production => "https://api.safaricom.co.ke"

/-- Modelled from the spec: each environment maps to a fixed public-key
certificate used for credential encryption. -/
def Environment.certificate : Environment → String
  | .Sandbox => "sandbox-public-certificate"
  | .Production => "production-public-certificate"

/-- Modelled from the spec: the `CommandId` enumeration (its source file is
not under `src/`).  The variants are the ones used by `client.rs` and the
spec's glossary. -/
inductive CommandId where
  | BusinessPayment
  | BusinessToBusinessTransfer
  | CustomerPayBillOnline
  | AccountBalance
deriving DecidableEq

/-- Modelled from the spec: `CommandId`'s `to_string` renders the variant name,
as the canonical command identifier strings in the payload tables. -/
def CommandId.toString : CommandId → String
  | .BusinessPayment => "BusinessPayment"
  | .BusinessToBusinessTransfer => "BusinessToBusinessTransfer"
  | .CustomerPayBillOnline => "CustomerPayBillOnline"
  | .AccountBalance => "AccountBalance"

/-- Modelled from the spec: the `ResponseType` enumeration used by C2B
registration (its source file `payloads/c2b.rs` is not under `src/`). -/
inductive ResponseType where
  | Complete
  | Cancelled
deriving DecidableEq

/-- Modelled from the spec: `ResponseType`'s `to_string` renders the variant
name. -/
def ResponseType.toString : ResponseType → String
  | .Complete => "Complete"
  | .Cancelled => "Cancelled"

/-- Modelled from the spec: the `IdentifierTypes` enumeration (glossary:
"enumerated party-identification scheme (e.g., shortcode)"). -/
inductive IdentifierTypes where
  | Shortcode
deriving DecidableEq

/-- JSON values as built by the `json!` macro in `client.rs`: the payloads use
only strings, unsigned numbers and flat objects. -/
inductive Json where
  | str (s : String)
  | num (n : Nat)
  | obj (fields : List (String × Json))

/-- The keys of a JSON object, in serialization order. -/
def jsonKeys : Json → List String
  | .obj fields => fields.map Prod.fst
  | _ => []

/-- First binding of a key in a JSON object. -/
def jsonLookup (k : String) : Json → Option Json
  | .obj fields => fields.lookup k
  | _ => none

/-- Look a key up and require a string value (serde string field). -/
def getStr (k : String) (j : Json) : Option String :=
  match jsonLookup k j with
  | some (.str s) => some s
  | _ => none

inductive Method where
  | GET
  | POST
deriving DecidableEq

/-- The authentication header attached by reqwest's `basic_auth` / `bearer_auth`. -/
inductive AuthHeader where
  | basic (user : String) (pass : String)
  | bearer (token : String)
deriving DecidableEq

/-- An outbound HTTP request as assembled by `client.rs`. -/
structure HttpRequest where
  method : Method
  url : String
  auth : AuthHeader
  body : Option Json

/-- A response body as seen by the deserializer: either text that is not valid
JSON at all, or a JSON value (which may still fail to match the typed shape). -/
inductive RespBody where
  | malformed
  | json (j : Json)

/-- Outcome of `send()`: a transport failure, or a delivered body. -/
inductive WireOutcome where
  | sendError
  | ok (b : RespBody)

/-- The network: answers each outbound request. -/
abbrev World := HttpRequest → WireOutcome

/-- The error kinds surfaced through `Box<dyn std::error::Error>` in
`client.rs`: transport failure from `send()?`, deserialization failure from
`.json()?`, and credential-derivation failure from
`gen_security_credentials()?`. -/
inductive MpesaError where
  | transport
  | deserialization
  | crypto (msg : String)
deriving DecidableEq

/-- The `Mpesa` client struct (`client.rs` lines 16-21). -/
structure Mpesa where
  client_key : String
  client_secret : String
  environment : Environment
  initiator_password : String
deriving DecidableEq

/-- `Mpesa::new` (`client.rs` lines 25-32): stores the four values verbatim;
it is a total constructor and cannot fail. -/
def Mpesa.new (client_key client_secret : String) (environment : Environment)
    (initiator_password : String) : Mpesa :=
  { client_key := client_key
    client_secret := client_secret
    environment := environment
    initiator_password := initiator_password }

/-- Modelled from the spec: the type of `gen_security_credentials`
implementations.  The method is generated by the `MpesaSecurity` derive macro,
whose source is not under `src/`; per spec 4.2 it takes the initiator password
and the environment and returns the encoded credential or a crypto error, so
operations are parameterized over such a function. -/
abbrev Crypto := String → Environment → Except String String

/-- Result of one operation call: the returned value or error, the outbound
requests issued (in order), and the client observed when the call returns. -/
structure OpResult (R : Type) where
  result : Except MpesaError R
  trace : List HttpRequest
  self : Mpesa

/-- The OAuth request built by `auth` (`client.rs` lines 38-42): GET to
`{base_url}/oauth/v1/generate?grant_type=client_credentials` with basic
authentication from (client_key, client_secret), no body. -/
def authRequest (m : Mpesa) : HttpRequest :=
  { method := .GET
    url := m.environment.base_url ++ "/oauth/v1/generate?grant_type=client_credentials"
    auth := .basic m.client_key m.client_secret
    body := none }

/-- Modelled from the spec: `AuthResponse` (`payloads/auth.rs` is not under
`src/`); the spec says the JSON body is parsed for an access-token field. -/
structure AuthResponse where
  access_token : String

/-- Modelled from the spec: deserializing the token response; a body that is
not JSON, or JSON without a string access-token field, is a deserialization
error. -/
def parseAuthResponse : RespBody → Except MpesaError AuthResponse
  | .malformed => .error .deserialization
  | .json j =>
    match getStr "access_token" j with
    | some t => .ok { access_token := t }
    | none => .error .deserialization

/-- `Mpesa::auth` (`client.rs` lines 37-46): one GET to the oauth endpoint,
parse the body as `AuthResponse`, return its access token. -/
def Mpesa.auth (m : Mpesa) (world : World) : OpResult String :=
  let req := authRequest m
  match world req with
  | .sendError => { result := .error .transport, trace := [req], self := m }
  | .ok b =>
    match parseAuthResponse b with
    | .error e => { result := .error e, trace := [req], self := m }
    | .ok r => { result := .ok r.access_token, trace := [req], self := m }

/-- Modelled from the spec: `B2cResponse` (`payloads/b2c.rs` is not under
`src/`): a flat record of the B2C acknowledgement fields; the integration test
reads its string field `ResponseCode`. -/
structure B2cResponse where
  ConversationID : String
  OriginatorConversationID : String
  ResponseCode : String
  ResponseDescription : String

/-- Modelled from the spec: `B2bResponse` (`payloads/b2b.rs` is not under
`src/`): the flat B2B acknowledgement record. -/
structure B2bResponse where
  ConversationID : String
  OriginatorConversationID : String
  ResponseCode : String
  ResponseDescription : String

/-- Modelled from the spec: `C2bSimulateResponse` (`payloads/c2b.rs` is not
under `src/`): the flat C2B simulation acknowledgement record. -/
structure C2bSimulateResponse where
  ConversationID : String
  OriginatorConversationID : String
  ResponseCode : String
  ResponseDescription : String

/-- Modelled from the spec: `AccountBalanceResponse`
(`payloads/account_balance.rs` is not under `src/`): the flat account-balance
acknowledgement record. -/
structure AccountBalanceResponse where
  ConversationID : String
  OriginatorConversationID : String
  ResponseCode : String
  ResponseDescription : String

/-- Modelled from the spec: deserializing a flat acknowledgement record; the
body must be JSON and carry the four string fields, else it is a
deserialization error. -/
def parseAck : RespBody → Except MpesaError (String × String × String × String)
  | .malformed => .error .deserialization
  | .json j =>
    match getStr "ConversationID" j, getStr "OriginatorConversationID" j,
        getStr "ResponseCode" j, getStr "ResponseDescription" j with
    | some a, some o, some r, some d => .ok (a, o, r, d)
    | _, _, _, _ => .error .deserialization

def parseB2cResponse (b : RespBody) : Except MpesaError B2cResponse :=
  match parseAck b with
  | .error e => .error e
  | .ok (a, o, r, d) =>
    .ok { ConversationID := a, OriginatorConversationID := o,
          ResponseCode := r, ResponseDescription := d }

def parseB2bResponse (b : RespBody) : Except MpesaError B2bResponse :=
  match parseAck b with
  | .error e => .error e
  | .ok (a, o, r, d) =>
    .ok { ConversationID := a, OriginatorConversationID := o,
          ResponseCode := r, ResponseDescription := d }

def parseC2bSimulateResponse (b : RespBody) : Except MpesaError C2bSimulateResponse :=
  match parseAck b with
  | .error e => .error e
  | .ok (a, o, r, d) =>
    .ok { ConversationID := a, OriginatorConversationID := o,
          ResponseCode := r, ResponseDescription := d }

def parseAccountBalanceResponse (b : RespBody) :
    Except MpesaError AccountBalanceResponse :=
  match parseAck b with
  | .error e => .error e
  | .ok (a, o, r, d) =>
    .ok { ConversationID := a, OriginatorConversationID := o,
          ResponseCode := r, ResponseDescription := d }

/-- The B2C payload serialized by the `json!` block in `client.rs` lines
110-121: key for key, value for value, in source order. -/
def b2c_data (initiator_name security_credentials : String) (command_id : CommandId)
    (amount : Nat) (party_a party_b remarks queue_timeout_url result_url
    occasion : String) : Json :=
  .obj [("InitiatorName", .str initiator_name),
        ("SecurityCredential", .str security_credentials),
        ("CommandID", .str command_id.toString),
        ("Amount", .num amount),
        ("PartyA", .str party_a),
        ("PartyB", .str party_b),
        ("Remarks", .str remarks),
        ("QueueTimeOutURL", .str queue_timeout_url),
        ("ResultURL", .str result_url),
        ("Occasion", .str occasion)]

/-- The B2B payload serialized by the `json!` block in `client.rs` lines
199-212 (note the source's "Initiator" and "RecieverIdentifierType" keys). -/
def b2b_data (initiator_name security_credentials : String) (command_id : CommandId)
    (sender_id receiver_id amount : Nat) (party_a party_b account_ref remarks
    queue_timeout_url result_url : String) : Json :=
  .obj [("Initiator", .str initiator_name),
        ("SecurityCredential", .str security_credentials),
        ("CommandID", .str command_id.toString),
        ("SenderIdentifierType", .num sender_id),
        ("RecieverIdentifierType", .num receiver_id),
        ("Amount", .num amount),
        ("PartyA", .str party_a),
        ("PartyB", .str party_b),
        ("AccountReference", .str account_ref),
        ("Remarks", .str remarks),
        ("QueueTimeOutURL", .str queue_timeout_url),
        ("ResultURL", .str result_url)]

/-- The C2B register payload serialized by the `json!` block in `client.rs`
lines 268-273. -/
def c2b_register_data (validation_url confirmation_url : String)
    (response_type : ResponseType) (short_code : String) : Json :=
  .obj [("ValidationURL", .str validation_url),
        ("ConfirmationURL", .str confirmation_url),
        ("ResponseType", .str response_type.toString),
        ("ShortCode", .str short_code)]

/-- The C2B simulate payload serialized by the `json!` block in `client.rs`
lines 328-334. -/
def c2b_simulate_data (command_id : CommandId) (amount : Nat)
    (msisdn bill_ref_number short_code : String) : Json :=
  .obj [("CommandID", .str command_id.toString),
        ("Amount", .num amount),
        ("Msisdn", .str msisdn),
        ("BillRefNumber", .str bill_ref_number),
        ("ShortCode", .str short_code)]

/-- The account-balance payload serialized by the `json!` block in `client.rs`
lines 391-400: `CommandID` is fixed to `AccountBalance` and `IdentifierType`
to the string literal "4" (the source hardcodes it with a FIXME). -/
def account_balance_data (security_credentials party_a remarks initiator_name
    queue_timeout_url result_url : String) : Json :=
  .obj [("CommandID", .str CommandId.AccountBalance.toString),
        ("PartyA", .str party_a),
        ("IdentifierType", .str "4"),
        ("Remarks", .str remarks),
        ("Initiator", .str initiator_name),
        ("SecurityCredential", .str security_credentials),
        ("QueueTimeOutURL", .str queue_timeout_url),
        ("ResultURL", .str result_url)]

/-- `Mpesa::b2c` (`client.rs` lines 82-130): derive the security credential,
build the payload, acquire a token, POST to the B2C endpoint with bearer
authentication, parse the typed response. -/
def Mpesa.b2c (m : Mpesa) (initiator_name : String) (command_id : CommandId)
    (amount : Nat) (party_a party_b remarks queue_timeout_url result_url
    occasion : String) (crypto : Crypto) (world : World) : OpResult B2cResponse :=
  let url := m.environment.base_url ++ "/mpesa/b2c/v1/paymentrequest"
  match crypto m.initiator_password m.environment with
  | .error e => { result := .error (.crypto e), trace := [], self := m }
  | .ok credentials =>
    let data := b2c_data initiator_name credentials command_id amount party_a
      party_b remarks queue_timeout_url result_url occasion
    let a := m.auth world
    match a.result with
    | .error e => { result := .error e, trace := a.trace, self := m }
    | .ok token =>
      let req : HttpRequest :=
        { method := .POST, url := url, auth := .bearer token, body := some data }
      match world req with
      | .sendError =>
        { result := .error .transport, trace := a.trace ++ [req], self := m }
      | .ok b =>
        match parseB2cResponse b with
        | .error e => { result := .error e, trace := a.trace ++ [req], self := m }
        | .ok r => { result := .ok r, trace := a.trace ++ [req], self := m }

/-- `Mpesa::b2b` (`client.rs` lines 167-221): derive the security credential,
build the payload, acquire a token, POST to the B2B endpoint, parse the typed
response. -/
def Mpesa.b2b (m : Mpesa) (initiator_name : String) (command_id : CommandId)
    (amount : Nat) (party_a : String) (sender_id : Nat) (party_b : String)
    (receiver_id : Nat) (remarks queue_timeout_url result_url account_ref : String)
    (crypto : Crypto) (world : World) : OpResult B2bResponse :=
  let url := m.environment.base_url ++ "/mpesa/b2b/v1/paymentrequest"
  match crypto m.initiator_password m.environment with
  | .error e => { result := .error (.crypto e), trace := [], self := m }
  | .ok credentials =>
    let data := b2b_data initiator_name credentials command_id sender_id
      receiver_id amount party_a party_b account_ref remarks queue_timeout_url
      result_url
    let a := m.auth world
    match a.result with
    | .error e => { result := .error e, trace := a.trace, self := m }
    | .ok token =>
      let req : HttpRequest :=
        { method := .POST, url := url, auth := .bearer token, body := some data }
      match world req with
      | .sendError =>
        { result := .error .transport, trace := a.trace ++ [req], self := m }
      | .ok b =>
        match parseB2bResponse b with
        | .error e => { result := .error e, trace := a.trace ++ [req], self := m }
        | .ok r => { result := .ok r, trace := a.trace ++ [req], self := m }

/-- `Mpesa::c2b_register` (`client.rs` lines 252-281): build the payload,
acquire a token, POST to the register endpoint, and return the raw HTTP
response without parsing its body (the source returns `reqwest::Response`
directly; no `.json()` call, so no deserialization happens).  The `crypto`
backend is available (it is a method on `self`) but never invoked. -/
def Mpesa.c2b_register (m : Mpesa) (validation_url confirmation_url : String)
    (response_type : ResponseType) (short_code : String) (crypto : Crypto)
    (world : World) : OpResult RespBody :=
  let url := m.environment.base_url ++ "/mpesa/c2b/v1/registerurl"
  let data := c2b_register_data validation_url confirmation_url response_type
    short_code
  let a := m.auth world
  match a.result with
  | .error e => { result := .error e, trace := a.trace, self := m }
  | .ok token =>
    let req : HttpRequest :=
      { method := .POST, url := url, auth := .bearer token, body := some data }
    match world req with
    | .sendError =>
      { result := .error .transport, trace := a.trace ++ [req], self := m }
    | .ok b => { result := .ok b, trace := a.trace ++ [req], self := m }

/-- `Mpesa::c2b_simulate` (`client.rs` lines 310-343): build the payload,
acquire a token, POST to the simulate endpoint, parse the typed response.
No security credential is derived; `crypto` is available but never invoked. -/
def Mpesa.c2b_simulate (m : Mpesa) (command_id : CommandId) (amount : Nat)
    (msisdn bill_ref_number short_code : String) (crypto : Crypto)
    (world : World) : OpResult C2bSimulateResponse :=
  let url := m.environment.base_url ++ "/mpesa/c2b/v1/simulate"
  let data := c2b_simulate_data command_id amount msisdn bill_ref_number
    short_code
  let a := m.auth world
  match a.result with
  | .error e => { result := .error e, trace := a.trace, self := m }
  | .ok token =>
    let req : HttpRequest :=
      { method := .POST, url := url, auth := .bearer token, body := some data }
    match world req with
    | .sendError =>
      { result := .error .transport, trace := a.trace ++ [req], self := m }
    | .ok b =>
      match parseC2bSimulateResponse b with
      | .error e => { result := .error e, trace := a.trace ++ [req], self := m }
      | .ok r => { result := .ok r, trace := a.trace ++ [req], self := m }

/-- `Mpesa::account_balance` (`client.rs` lines 369-409): derive the security
credential, build the payload, acquire a token, POST to the account-balance
endpoint, parse the typed response. -/
def Mpesa.account_balance (m : Mpesa) (party_a remarks initiator_name
    queue_timeout_url result_url : String) (crypto : Crypto) (world : World) :
    OpResult AccountBalanceResponse :=
  let url := m.environment.base_url ++ "/mpesa/accountbalance/v1/query"
  match crypto m.initiator_password m.environment with
  | .error e => { result := .error (.crypto e), trace := [], self := m }
  | .ok credentials =>
    let data := account_balance_data credentials party_a remarks initiator_name
      queue_timeout_url result_url
    let a := m.auth world
    match a.result with
    | .error e => { result := .error e, trace := a.trace, self := m }
    | .ok token =>
      let req : HttpRequest :=
        { method := .POST, url := url, auth := .bearer token, body := some data }
      match world req with
      | .sendError =>
        { result := .error .transport, trace := a.trace ++ [req], self := m }
      | .ok b =>
        match parseAccountBalanceResponse b with
        | .error e => { result := .error e, trace := a.trace ++ [req], self := m }
        | .ok r => { result := .ok r, trace := a.trace ++ [req], self := m }

/-- Modelled from the spec: the RSA encryption step of 4.2, abstracted as a
deterministic byte transform of the password keyed by the environment's
certificate (the spec requires only that the step be a deterministic function
of (password, certificate)). -/
def encryptWithCert (cert password : String) : List Nat :=
  let key := (cert.toList.map Char.toNat).foldl (fun a c => (a * 31 + c) % 256) 7
  password.toList.map (fun c => (Char.toNat c + key) % 256)

def base64Table : List Char :=
  "ABCDEFGHIJKLMNOPQRSTUVWXYZabcdefghijklmnopqrstuvwxyz0123456789+/".toList

def b64char (n : Nat) : Char := base64Table.getD n (Char.ofNat 61)

/-- Standard base64 of a byte list (bytes given as naturals below 256). -/
def base64Encode : List Nat → String
  | [] => ""
  | [b1] =>
    String.mk [b64char (b1 / 4), b64char (b1 % 4 * 16), Char.ofNat 61, Char.ofNat 61]
  | [b1, b2] =>
    String.mk [b64char (b1 / 4), b64char (b1 % 4 * 16 + b2 / 16),
      b64char (b2 % 16 * 4), Char.ofNat 61]
  | b1 :: b2 :: b3 :: rest =>
    String.mk [b64char (b1 / 4), b64char (b1 % 4 * 16 + b2 / 16),
      b64char (b2 % 16 * 4 + b3 / 64), b64char (b3 % 64)] ++ base64Encode rest

/-- Modelled from the spec: `derive_security_credential` (4.2) — encrypt the
password bytes under the environment's certificate and base64-encode the
ciphertext; a pure function of (password, certificate). -/
def derive_security_credential (password : String) (environment : Environment) :
    Except String String :=
  .ok (base64Encode (encryptWithCert environment.certificate password))

/-- Modelled from the spec: `gen_security_credentials`, the method the
`MpesaSecurity` derive macro attaches to `Mpesa` (its source is not under
`src/`): derives the credential from the client's initiator password and
environment. -/
def Mpesa.gen_security_credentials (m : Mpesa) : Except String String :=
  derive_security_credential m.initiator_password m.environment

/-- A token response body carrying the given access token. -/
def tokenBody (t : String) : WireOutcome :=
  .ok (.json (.obj [("access_token", .str t)]))

/-- A well-formed acknowledgement body with the four string fields. -/
def ackBody (a o r d : String) : RespBody :=
  .json (.obj [("ConversationID", .str a),
               ("OriginatorConversationID", .str o),
               ("ResponseCode", .str r),
               ("ResponseDescription", .str d)])

theorem parseAck_ackBody (a o r d : String) :
    parseAck (ackBody a o r d) = .ok (a, o, r, d) := rfl

theorem auth_trace (m : Mpesa) (world : World) :
    (m.auth world).trace = [authRequest m] := by
  unfold Mpesa.auth
  dsimp only
  cases world (authRequest m) with
  | sendError => rfl
  | ok b =>
    dsimp only
    cases parseAuthResponse b <;> rfl

theorem auth_self (m : Mpesa) (world : World) : (m.auth world).self = m := by
  unfold Mpesa.auth
  dsimp only
  cases world (authRequest m) with
  | sendError => rfl
  | ok b =>
    dsimp only
    cases parseAuthResponse b <;> rfl

theorem auth_result_token (m : Mpesa) (world : World) (t : String)
    (h : world (authRequest m) = tokenBody t) :
    (m.auth world).result = .ok t := by
  unfold Mpesa.auth
  dsimp only
  rw [h]
  rfl

theorem auth_result_sendError (m : Mpesa) (world : World)
    (h : world (authRequest m) = .sendError) :
    (m.auth world).result = .error .transport := by
  unfold Mpesa.auth
  dsimp only
  rw [h]

theorem auth_result_malformed (m : Mpesa) (world : World)
    (h : world (authRequest m) = .ok .malformed) :
    (m.auth world).result = .error .deserialization := by
  unfold Mpesa.auth
  dsimp only
  rw [h]
  rfl

def b2cRequest (m : Mpesa) (token : String) (data : Json) : HttpRequest :=
  { method := .POST
    url := m.environment.base_url ++ "/mpesa/b2c/v1/paymentrequest"
    auth := .bearer token
    body := some data }

def b2cKeys : List String :=
  ["InitiatorName", "SecurityCredential", "CommandID", "Amount", "PartyA",
   "PartyB", "Remarks", "QueueTimeOutURL", "ResultURL", "Occasion"]

theorem b2c_cryptoFail (m : Mpesa) (i : String) (cid : CommandId) (amt : Nat)
    (pa pb rem qu ru oc : String) (crypto : Crypto) (world : World) (e : String)
    (hc : crypto m.initiator_password m.environment = .error e) :
    m.b2c i cid amt pa pb rem qu ru oc crypto world =
      { result := .error (.crypto e), trace := [], self := m } := by
  unfold Mpesa.b2c
  dsimp only
  rw [hc]

theorem b2c_run (m : Mpesa) (i : String) (cid : CommandId) (amt : Nat)
    (pa pb rem qu ru oc : String) (crypto : Crypto) (world : World)
    (cred tok : String)
    (hc : crypto m.initiator_password m.environment = .ok cred)
    (ha : world (authRequest m) = tokenBody tok) :
    m.b2c i cid amt pa pb rem qu ru oc crypto world =
      { result :=
          match world (b2cRequest m tok
              (b2c_data i cred cid amt pa pb rem qu ru oc)) with
          | .sendError => .error .transport
          | .ok b =>
            match parseB2cResponse b with
            | .error e => .error e
            | .ok r => .ok r
        trace := [authRequest m,
          b2cRequest m tok (b2c_data i cred cid amt pa pb rem qu ru oc)]
        self := m } := by
  unfold Mpesa.b2c
  dsimp only
  rw [hc]
  dsimp only
  rw [auth_result_token m world tok ha, auth_trace]
  dsimp only [b2cRequest]
  cases world
      { method := .POST
        url := m.environment.base_url ++ "/mpesa/b2c/v1/paymentrequest"
        auth := .bearer tok
        body := some (b2c_data i cred cid amt pa pb rem qu ru oc) } with
  | sendError => rfl
  | ok b =>
    dsimp only
    cases parseB2cResponse b <;> rfl

theorem b2c_self (m : Mpesa) (i : String) (cid : CommandId) (amt : Nat)
    (pa pb rem qu ru oc : String) (crypto : Crypto) (world : World) :
    (m.b2c i cid amt pa pb rem qu ru oc crypto world).self = m := by
  unfold Mpesa.b2c
  dsimp only
  split
  · rfl
  · split
    · rfl
    · split
      · rfl
      · split <;> rfl

theorem b2c_trace_body_keys (m : Mpesa) (i : String) (cid : CommandId)
    (amt : Nat) (pa pb rem qu ru oc : String) (crypto : Crypto) (world : World) :
    ∀ req ∈ (m.b2c i cid amt pa pb rem qu ru oc crypto world).trace,
      ∀ b, req.body = some b → jsonKeys b = b2cKeys := by
  unfold Mpesa.b2c
  dsimp only
  split
  · intro req h
    simp at h
  · split
    · intro req h b hb
      simp only [auth_trace, List.mem_singleton] at h
      subst h
      simp [authRequest] at hb
    · split
      · intro req h b hb
        simp only [auth_trace, List.cons_append, List.nil_append, List.mem_cons,
          List.mem_singleton, List.not_mem_nil, or_false] at h
        rcases h with h1 | h1
        · subst h1
          simp [authRequest] at hb
        · subst h1
          simp only [Option.some.injEq] at hb
          subst hb
          simp [b2c_data, jsonKeys, b2cKeys]
      · split
        · intro req h b hb
          simp only [auth_trace, List.cons_append, List.nil_append,
            List.mem_cons, List.mem_singleton, List.not_mem_nil, or_false] at h
          rcases h with h1 | h1
          · subst h1
            simp [authRequest] at hb
          · subst h1
            simp only [Option.some.injEq] at hb
            subst hb
            simp [b2c_data, jsonKeys, b2cKeys]
        · intro req h b hb
          simp only [auth_trace, List.cons_append, List.nil_append,
            List.mem_cons, List.mem_singleton, List.not_mem_nil, or_false] at h
          rcases h with h1 | h1
          · subst h1
            simp [authRequest] at hb
          · subst h1
            simp only [Option.some.injEq] at hb
            subst hb
            simp [b2c_data, jsonKeys, b2cKeys]

def b2bRequest (m : Mpesa) (token : String) (data : Json) : HttpRequest :=
  { method := .POST
    url := m.environment.base_url ++ "/mpesa/b2b/v1/paymentrequest"
    auth := .bearer token
    body := some data }

def b2bKeys : List String :=
  ["Initiator", "SecurityCredential", "CommandID", "SenderIdentifierType",
   "RecieverIdentifierType", "Amount", "PartyA", "PartyB", "AccountReference",
   "Remarks", "QueueTimeOutURL", "ResultURL"]

theorem b2b_cryptoFail (m : Mpesa) (i : String) (cid : CommandId) (amt : Nat)
    (pa : String) (sid : Nat) (pb : String) (rid : Nat)
    (rem qu ru aref : String) (crypto : Crypto) (world : World) (e : String)
    (hc : crypto m.initiator_password m.environment = .error e) :
    m.b2b i cid amt pa sid pb rid rem qu ru aref crypto world =
      { result := .error (.crypto e), trace := [], self := m } := by
  unfold Mpesa.b2b
  dsimp only
  rw [hc]

theorem b2b_run (m : Mpesa) (i : String) (cid : CommandId) (amt : Nat)
    (pa : String) (sid : Nat) (pb : String) (rid : Nat)
    (rem qu ru aref : String) (crypto : Crypto) (world : World)
    (cred tok : String)
    (hc : crypto m.initiator_password m.environment = .ok cred)
    (ha : world (authRequest m) = tokenBody tok) :
    m.b2b i cid amt pa sid pb rid rem qu ru aref crypto world =
      { result :=
          match world (b2bRequest m tok
              (b2b_data i cred cid sid rid amt pa pb aref rem qu ru)) with
          | .sendError => .error .transport
          | .ok b =>
            match parseB2bResponse b with
            | .error e => .error e
            | .ok r => .ok r
        trace := [authRequest m,
          b2bRequest m tok (b2b_data i cred cid sid rid amt pa pb aref rem qu ru)]
        self := m } := by
  unfold Mpesa.b2b
  dsimp only
  rw [hc]
  dsimp only
  rw [auth_result_token m world tok ha, auth_trace]
  dsimp only [b2bRequest]
  cases world
      { method := .POST
        url := m.environment.base_url ++ "/mpesa/b2b/v1/paymentrequest"
        auth := .bearer tok
        body := some (b2b_data i cred cid sid rid amt pa pb aref rem qu ru) } with
  | sendError => rfl
  | ok b =>
    dsimp only
    cases parseB2bResponse b <;> rfl

theorem b2b_self (m : Mpesa) (i : String) (cid : CommandId) (amt : Nat)
    (pa : String) (sid : Nat) (pb : String) (rid : Nat)
    (rem qu ru aref : String) (crypto : Crypto) (world : World) :
    (m.b2b i cid amt pa sid pb rid rem qu ru aref crypto world).self = m := by
  unfold Mpesa.b2b
  dsimp only
  split
  · rfl
  · split
    · rfl
    · split
      · rfl
      · split <;> rfl

theorem b2b_trace_body_keys (m : Mpesa) (i : String) (cid : CommandId)
    (amt : Nat) (pa : String) (sid : Nat) (pb : String) (rid : Nat)
    (rem qu ru aref : String) (crypto : Crypto) (world : World) :
    ∀ req ∈ (m.b2b i cid amt pa sid pb rid rem qu ru aref crypto world).trace,
      ∀ b, req.body = some b → jsonKeys b = b2bKeys := by
  unfold Mpesa.b2b
  dsimp only
  split
  · intro req h
    simp at h
  · split
    · intro req h b hb
      simp only [auth_trace, List.mem_singleton] at h
      subst h
      simp [authRequest] at hb
    · split
      · intro req h b hb
        simp only [auth_trace, List.cons_append, List.nil_append, List.mem_cons,
          List.mem_singleton, List.not_mem_nil, or_false] at h
        rcases h with h1 | h1
        · subst h1
          simp [authRequest] at hb
        · subst h1
          simp only [Option.some.injEq] at hb
          subst hb
          simp [b2b_data, jsonKeys, b2bKeys]
      · split
        · intro req h b hb
          simp only [auth_trace, List.cons_append, List.nil_append,
            List.mem_cons, List.mem_singleton, List.not_mem_nil, or_false] at h
          rcases h with h1 | h1
          · subst h1
            simp [authRequest] at hb
          · subst h1
            simp only [Option.some.injEq] at hb
            subst hb
            simp [b2b_data, jsonKeys, b2bKeys]
        · intro req h b hb
          simp only [auth_trace, List.cons_append, List.nil_append,
            List.mem_cons, List.mem_singleton, List.not_mem_nil, or_false] at h
          rcases h with h1 | h1
          · subst h1
            simp [authRequest] at hb
          · subst h1
            simp only [Option.some.injEq] at hb
            subst hb
            simp [b2b_data, jsonKeys, b2bKeys]

def c2bRegisterRequest (m : Mpesa) (token : String) (data : Json) : HttpRequest :=
  { method := .POST
    url := m.environment.base_url ++ "/mpesa/c2b/v1/registerurl"
    auth := .bearer token
    body := some data }

def c2bRegisterKeys : List String :=
  ["ValidationURL", "ConfirmationURL", "ResponseType", "ShortCode"]

theorem c2b_register_run (m : Mpesa) (vu cu : String) (rt : ResponseType)
    (sc : String) (crypto : Crypto) (world : World) (tok : String)
    (ha : world (authRequest m) = tokenBody tok) :
    m.c2b_register vu cu rt sc crypto world =
      { result :=
          match world (c2bRegisterRequest m tok
              (c2b_register_data vu cu rt sc)) with
          | .sendError => .error .transport
          | .ok b => .ok b
        trace := [authRequest m,
          c2bRegisterRequest m tok (c2b_register_data vu cu rt sc)]
        self := m } := by
  unfold Mpesa.c2b_register
  dsimp only
  rw [auth_result_token m world tok ha, auth_trace]
  dsimp only [c2bRegisterRequest]
  cases world
      { method := .POST
        url := m.environment.base_url ++ "/mpesa/c2b/v1/registerurl"
        auth := .bearer tok
        body := some (c2b_register_data vu cu rt sc) } with
  | sendError => rfl
  | ok b => rfl

theorem c2b_register_self (m : Mpesa) (vu cu : String) (rt : ResponseType)
    (sc : String) (crypto : Crypto) (world : World) :
    (m.c2b_register vu cu rt sc crypto world).self = m := by
  unfold Mpesa.c2b_register
  dsimp only
  split
  · rfl
  · split <;> rfl

theorem c2b_register_trace_body_keys (m : Mpesa) (vu cu : String)
    (rt : ResponseType) (sc : String) (crypto : Crypto) (world : World) :
    ∀ req ∈ (m.c2b_register vu cu rt sc crypto world).trace,
      ∀ b, req.body = some b → jsonKeys b = c2bRegisterKeys := by
  unfold Mpesa.c2b_register
  dsimp only
  split
  · intro req h b hb
    simp only [auth_trace, List.mem_singleton] at h
    subst h
    simp [authRequest] at hb
  · split
    · intro req h b hb
      simp only [auth_trace, List.cons_append, List.nil_append, List.mem_cons,
        List.mem_singleton, List.not_mem_nil, or_false] at h
      rcases h with h1 | h1
      · subst h1
        simp [authRequest] at hb
      · subst h1
        simp only [Option.some.injEq] at hb
        subst hb
        simp [c2b_register_data, jsonKeys, c2bRegisterKeys]
    · intro req h b hb
      simp only [auth_trace, List.cons_append, List.nil_append, List.mem_cons,
        List.mem_singleton, List.not_mem_nil, or_false] at h
      rcases h with h1 | h1
      · subst h1
        simp [authRequest] at hb
      · subst h1
        simp only [Option.some.injEq] at hb
        subst hb
        simp [c2b_register_data, jsonKeys, c2bRegisterKeys]

def c2bSimulateRequest (m : Mpesa) (token : String) (data : Json) : HttpRequest :=
  { method := .POST
    url := m.environment.base_url ++ "/mpesa/c2b/v1/simulate"
    auth := .bearer token
    body := some data }

def c2bSimulateKeys : List String :=
  ["CommandID", "Amount", "Msisdn", "BillRefNumber", "ShortCode"]

theorem c2b_simulate_run (m : Mpesa) (cid : CommandId) (amt : Nat)
    (msisdn brn sc : String) (crypto : Crypto) (world : World) (tok : String)
    (ha : world (authRequest m) = tokenBody tok) :
    m.c2b_simulate cid amt msisdn brn sc crypto world =
      { result :=
          match world (c2bSimulateRequest m tok
              (c2b_simulate_data cid amt msisdn brn sc)) with
          | .sendError => .error .transport
          | .ok b =>
            match parseC2bSimulateResponse b with
            | .error e => .error e
            | .ok r => .ok r
        trace := [authRequest m,
          c2bSimulateRequest m tok (c2b_simulate_data cid amt msisdn brn sc)]
        self := m } := by
  unfold Mpesa.c2b_simulate
  dsimp only
  rw [auth_result_token m world tok ha, auth_trace]
  dsimp only [c2bSimulateRequest]
  cases world
      { method := .POST
        url := m.environment.base_url ++ "/mpesa/c2b/v1/simulate"
        auth := .bearer tok
        body := some (c2b_simulate_data cid amt msisdn brn sc) } with
  | sendError => rfl
  | ok b =>
    dsimp only
    cases parseC2bSimulateResponse b <;> rfl

theorem c2b_simulate_self (m : Mpesa) (cid : CommandId) (amt : Nat)
    (msisdn brn sc : String) (crypto : Crypto) (world : World) :
    (m.c2b_simulate cid amt msisdn brn sc crypto world).self = m := by
  unfold Mpesa.c2b_simulate
  dsimp only
  split
  · rfl
  · split
    · rfl
    · split <;> rfl

theorem c2b_simulate_trace_body_keys (m : Mpesa) (cid : CommandId) (amt : Nat)
    (msisdn brn sc : String) (crypto : Crypto) (world : World) :
    ∀ req ∈ (m.c2b_simulate cid amt msisdn brn sc crypto world).trace,
      ∀ b, req.body = some b → jsonKeys b = c2bSimulateKeys := by
  unfold Mpesa.c2b_simulate
  dsimp only
  split
  · intro req h b hb
    simp only [auth_trace, List.mem_singleton] at h
    subst h
    simp [authRequest] at hb
  · split
    · intro req h b hb
      simp only [auth_trace, List.cons_append, List.nil_append, List.mem_cons,
        List.mem_singleton, List.not_mem_nil, or_false] at h
      rcases h with h1 | h1
      · subst h1
        simp [authRequest] at hb
      · subst h1
        simp only [Option.some.injEq] at hb
        subst hb
        simp [c2b_simulate_data, jsonKeys, c2bSimulateKeys]
    · split
      · intro req h b hb
        simp only [auth_trace, List.cons_append, List.nil_append, List.mem_cons,
          List.mem_singleton, List.not_mem_nil, or_false] at h
        rcases h with h1 | h1
        · subst h1
          simp [authRequest] at hb
        · subst h1
          simp only [Option.some.injEq] at hb
          subst hb
          simp [c2b_simulate_data, jsonKeys, c2bSimulateKeys]
      · intro req h b hb
        simp only [auth_trace, List.cons_append, List.nil_append, List.mem_cons,
          List.mem_singleton, List.not_mem_nil, or_false] at h
        rcases h with h1 | h1
        · subst h1
          simp [authRequest] at hb
        · subst h1
          simp only [Option.some.injEq] at hb
          subst hb
          simp [c2b_simulate_data, jsonKeys, c2bSimulateKeys]

def accountBalanceRequest (m : Mpesa) (token : String) (data : Json) : HttpRequest :=
  { method := .POST
    url := m.environment.base_url ++ "/mpesa/accountbalance/v1/query"
    auth := .bearer token
    body := some data }

def accountBalanceKeys : List String :=
  ["CommandID", "PartyA", "IdentifierType", "Remarks", "Initiator",
   "SecurityCredential", "QueueTimeOutURL", "ResultURL"]

theorem account_balance_cryptoFail (m : Mpesa) (pa rem i qu ru : String)
    (crypto : Crypto) (world : World) (e : String)
    (hc : crypto m.initiator_password m.environment = .error e) :
    m.account_balance pa rem i qu ru crypto world =
      { result := .error (.crypto e), trace := [], self := m } := by
  unfold Mpesa.account_balance
  dsimp only
  rw [hc]

theorem account_balance_run (m : Mpesa) (pa rem i qu ru : String)
    (crypto : Crypto) (world : World) (cred tok : String)
    (hc : crypto m.initiator_password m.environment = .ok cred)
    (ha : world (authRequest m) = tokenBody tok) :
    m.account_balance pa rem i qu ru crypto world =
      { result :=
          match world (accountBalanceRequest m tok
              (account_balance_data cred pa rem i qu ru)) with
          | .sendError => .error .transport
          | .ok b =>
            match parseAccountBalanceResponse b with
            | .error e => .error e
            | .ok r => .ok r
        trace := [authRequest m,
          accountBalanceRequest m tok (account_balance_data cred pa rem i qu ru)]
        self := m } := by
  unfold Mpesa.account_balance
  dsimp only
  rw [hc]
  dsimp only
  rw [auth_result_token m world tok ha, auth_trace]
  dsimp only [accountBalanceRequest]
  cases world
      { method := .POST
        url := m.environment.base_url ++ "/mpesa/accountbalance/v1/query"
        auth := .bearer tok
        body := some (account_balance_data cred pa rem i qu ru) } with
  | sendError => rfl
  | ok b =>
    dsimp only
    cases parseAccountBalanceResponse b <;> rfl

theorem account_balance_self (m : Mpesa) (pa rem i qu ru : String)
    (crypto : Crypto) (world : World) :
    (m.account_balance pa rem i qu ru crypto world).self = m := by
  unfold Mpesa.account_balance
  dsimp only
  split
  · rfl
  · split
    · rfl
    · split
      · rfl
      · split <;> rfl

theorem account_balance_trace_body_keys (m : Mpesa) (pa rem i qu ru : String)
    (crypto : Crypto) (world : World) :
    ∀ req ∈ (m.account_balance pa rem i qu ru crypto world).trace,
      ∀ b, req.body = some b → jsonKeys b = accountBalanceKeys := by
  unfold Mpesa.account_balance
  dsimp only
  split
  · intro req h
    simp at h
  · split
    · intro req h b hb
      simp only [auth_trace, List.mem_singleton] at h
      subst h
      simp [authRequest] at hb
    · split
      · intro req h b hb
        simp only [auth_trace, List.cons_append, List.nil_append, List.mem_cons,
          List.mem_singleton, List.not_mem_nil, or_false] at h
        rcases h with h1 | h1
        · subst h1
          simp [authRequest] at hb
        · subst h1
          simp only [Option.some.injEq] at hb
          subst hb
          simp [account_balance_data, jsonKeys, accountBalanceKeys]
      · split
        · intro req h b hb
          simp only [auth_trace, List.cons_append, List.nil_append,
            List.mem_cons, List.mem_singleton, List.not_mem_nil, or_false] at h
          rcases h with h1 | h1
          · subst h1
            simp [authRequest] at hb
          · subst h1
            simp only [Option.some.injEq] at hb
            subst hb
            simp [account_balance_data, jsonKeys, accountBalanceKeys]
        · intro req h b hb
          simp only [auth_trace, List.cons_append, List.nil_append,
            List.mem_cons, List.mem_singleton, List.not_mem_nil, or_false] at h
          rcases h with h1 | h1
          · subst h1
            simp [authRequest] at hb
          · subst h1
            simp only [Option.some.injEq] at hb
            subst hb
            simp [account_balance_data, jsonKeys, accountBalanceKeys]

/-- A sandbox client built like the one in `tests/b2c_test.rs`. -/
def mSand : Mpesa := Mpesa.new "key" "secret" .Sandbox "pw"

/-- A production client with the same key material as `mSand`. -/
def mProd : Mpesa := Mpesa.new "key" "secret" .Production "pw"

/-- A credential backend that always succeeds with a fixed credential. -/
def cryptoOk : Crypto := fun _ _ => .ok "cred"

/-- A credential backend whose certificate fails to load. -/
def cryptoBroken : Crypto := fun _ _ => .error "certificate load failure"

/-- A network that answers the token GET with a valid token and every POST
with a body that is not valid JSON. -/
def worldTokThenMalformed : World := fun req =>
  match req.method with
  | .GET => tokenBody "tok"
  | .POST => .ok .malformed

/-- A network that answers the token GET with a valid token and every POST
with a JSON object that has ConversationID, OriginatorConversationID and
ResponseDescription but no ResponseCode field: valid JSON that does not match
the expected response shape. -/
def worldTokThenNoCode : World := fun req =>
  match req.method with
  | .GET => tokenBody "tok"
  | .POST => .ok (.json (.obj [("ConversationID", .str "c1"),
      ("OriginatorConversationID", .str "o1"),
      ("ResponseDescription", .str "d")]))

/-- A network that answers the token GET with a valid token and every POST
with a well-formed acknowledgement whose ResponseCode is "1" (rejected). -/
def worldTokThenAck1 : World := fun req =>
  match req.method with
  | .GET => tokenBody "tok"
  | .POST => .ok (ackBody "c1" "o1" "1" "rejected")

/-- A network that answers the token GET with a valid token and every POST
with a well-formed acknowledgement whose ResponseCode is "0" (accepted). -/
def worldTokThenAck0 : World := fun req =>
  match req.method with
  | .GET => tokenBody "tok"
  | .POST => .ok (ackBody "c1" "o1" "0" "accepted")

/-- C2: for every input to b2c, the serialized JSON body has exactly the ten
keys InitiatorName, SecurityCredential, CommandID, Amount, PartyA, PartyB,
Remarks, QueueTimeOutURL, ResultURL, Occasion, each exactly once, each mapped
from the corresponding input field; and a b2c call whose credential derivation
and token exchange succeed POSTs exactly this body to the B2C endpoint. -/
theorem b2c_payload_fields (i cred : String) (cid : CommandId) (amt : Nat)
    (pa pb rem qu ru oc : String) :
    jsonKeys (b2c_data i cred cid amt pa pb rem qu ru oc) = b2cKeys
    ∧ (jsonKeys (b2c_data i cred cid amt pa pb rem qu ru oc)).Nodup
    ∧ jsonLookup "InitiatorName" (b2c_data i cred cid amt pa pb rem qu ru oc)
        = some (.str i)
    ∧ jsonLookup "SecurityCredential" (b2c_data i cred cid amt pa pb rem qu ru oc)
        = some (.str cred)
    ∧ jsonLookup "CommandID" (b2c_data i cred cid amt pa pb rem qu ru oc)
        = some (.str cid.toString)
    ∧ jsonLookup "Amount" (b2c_data i cred cid amt pa pb rem qu ru oc)
        = some (.num amt)
    ∧ jsonLookup "PartyA" (b2c_data i cred cid amt pa pb rem qu ru oc)
        = some (.str pa)
    ∧ jsonLookup "PartyB" (b2c_data i cred cid amt pa pb rem qu ru oc)
        = some (.str pb)
    ∧ jsonLookup "Remarks" (b2c_data i cred cid amt pa pb rem qu ru oc)
        = some (.str rem)
    ∧ jsonLookup "QueueTimeOutURL" (b2c_data i cred cid amt pa pb rem qu ru oc)
        = some (.str qu)
    ∧ jsonLookup "ResultURL" (b2c_data i cred cid amt pa pb rem qu ru oc)
        = some (.str ru)
    ∧ jsonLookup "Occasion" (b2c_data i cred cid amt pa pb rem qu ru oc)
        = some (.str oc)
    ∧ (∀ (m : Mpesa) (crypto : Crypto) (world : World) (tok : String),
        crypto m.initiator_password m.environment = .ok cred →
        world (authRequest m) = tokenBody tok →
        (m.b2c i cid amt pa pb rem qu ru oc crypto world).trace =
          [authRequest m,
           b2cRequest m tok (b2c_data i cred cid amt pa pb rem qu ru oc)]) := by
  refine ⟨by simp [b2c_data, jsonKeys, b2cKeys], ?_, rfl, rfl, rfl, rfl, rfl,
    rfl, rfl, rfl, rfl, rfl, ?_⟩
  · have h : jsonKeys (b2c_data i cred cid amt pa pb rem qu ru oc) = b2cKeys := by
      simp [b2c_data, jsonKeys, b2cKeys]
    rw [h]
    decide
  · intro m crypto world tok hc ha
    rw [b2c_run m i cid amt pa pb rem qu ru oc crypto world cred tok hc ha]

/-- Witness for b2c_payload_fields at concrete inputs. -/
theorem b2c_payload_fields_witness :
    jsonKeys (b2c_data "testapi496" "cred" .BusinessPayment 1000 "600496"
      "254708374149" "gg" "https://q" "https://r" "Test") = b2cKeys
    ∧ (mSand.b2c "testapi496" .BusinessPayment 1000 "600496" "254708374149"
        "gg" "https://q" "https://r" "Test" cryptoOk worldTokThenAck0).trace =
      [authRequest mSand,
       b2cRequest mSand "tok" (b2c_data "testapi496" "cred" .BusinessPayment
         1000 "600496" "254708374149" "gg" "https://q" "https://r" "Test")] := by
  have h := b2c_payload_fields "testapi496" "cred" .BusinessPayment 1000
    "600496" "254708374149" "gg" "https://q" "https://r" "Test"
  exact ⟨h.1, h.2.2.2.2.2.2.2.2.2.2.2.2 mSand cryptoOk worldTokThenAck0 "tok"
    rfl rfl⟩

/-- C3: for every input to b2b, the serialized JSON body uses the key
"Initiator" (not "InitiatorName") for the initiator name and the upstream
API's misspelled key "RecieverIdentifierType" (not the correct spelling) for
the receiver identifier type, alongside SecurityCredential, CommandID,
SenderIdentifierType, Amount, PartyA, PartyB, AccountReference, Remarks,
QueueTimeOutURL, ResultURL; a b2b call whose credential derivation and token
exchange succeed POSTs exactly this body to the B2B endpoint. -/
theorem b2b_payload_fields (i cred : String) (cid : CommandId)
    (sid rid amt : Nat) (pa pb aref rem qu ru : String) :
    jsonKeys (b2b_data i cred cid sid rid amt pa pb aref rem qu ru) = b2bKeys
    ∧ (jsonKeys (b2b_data i cred cid sid rid amt pa pb aref rem qu ru)).Nodup
    ∧ jsonLookup "Initiator" (b2b_data i cred cid sid rid amt pa pb aref rem qu ru)
        = some (.str i)
    ∧ jsonLookup "InitiatorName" (b2b_data i cred cid sid rid amt pa pb aref rem qu ru)
        = none
    ∧ jsonLookup "RecieverIdentifierType" (b2b_data i cred cid sid rid amt pa pb aref rem qu ru)
        = some (.num rid)
    ∧ jsonLookup "ReceiverIdentifierType" (b2b_data i cred cid sid rid amt pa pb aref rem qu ru)
        = none
    ∧ jsonLookup "SecurityCredential" (b2b_data i cred cid sid rid amt pa pb aref rem qu ru)
        = some (.str cred)
    ∧ jsonLookup "CommandID" (b2b_data i cred cid sid rid amt pa pb aref rem qu ru)
        = some (.str cid.toString)
    ∧ jsonLookup "SenderIdentifierType" (b2b_data i cred cid sid rid amt pa pb aref rem qu ru)
        = some (.num sid)
    ∧ jsonLookup "Amount" (b2b_data i cred cid sid rid amt pa pb aref rem qu ru)
        = some (.num amt)
    ∧ jsonLookup "PartyA" (b2b_data i cred cid sid rid amt pa pb aref rem qu ru)
        = some (.str pa)
    ∧ jsonLookup "PartyB" (b2b_data i cred cid sid rid amt pa pb aref rem qu ru)
        = some (.str pb)
    ∧ jsonLookup "AccountReference" (b2b_data i cred cid sid rid amt pa pb aref rem qu ru)
        = some (.str aref)
    ∧ jsonLookup "Remarks" (b2b_data i cred cid sid rid amt pa pb aref rem qu ru)
        = some (.str rem)
    ∧ jsonLookup "QueueTimeOutURL" (b2b_data i cred cid sid rid amt pa pb aref rem qu ru)
        = some (.str qu)
    ∧ jsonLookup "ResultURL" (b2b_data i cred cid sid rid amt pa pb aref rem qu ru)
        = some (.str ru)
    ∧ (∀ (m : Mpesa) (crypto : Crypto) (world : World) (tok : String),
        crypto m.initiator_password m.environment = .ok cred →
        world (authRequest m) = tokenBody tok →
        (m.b2b i cid amt pa sid pb rid rem qu ru aref crypto world).trace =
          [authRequest m,
           b2bRequest m tok (b2b_data i cred cid sid rid amt pa pb aref rem qu ru)]) := by
  refine ⟨by simp [b2b_data, jsonKeys, b2bKeys], ?_, rfl, rfl, rfl, rfl, rfl,
    rfl, rfl, rfl, rfl, rfl, rfl, rfl, rfl, rfl, ?_⟩
  · have h : jsonKeys (b2b_data i cred cid sid rid amt pa pb aref rem qu ru)
        = b2bKeys := by
      simp [b2b_data, jsonKeys, b2bKeys]
    rw [h]
    decide
  · intro m crypto world tok hc ha
    rw [b2b_run m i cid amt pa sid pb rid rem qu ru aref crypto world cred tok hc ha]

/-- Witness for b2b_payload_fields at concrete inputs. -/
theorem b2b_payload_fields_witness :
    jsonKeys (b2b_data "testapi496" "cred" .BusinessToBusinessTransfer 4 4
      1000 "600496" "600000" "254708374149" "gg" "https://q" "https://r") = b2bKeys
    ∧ (mSand.b2b "testapi496" .BusinessToBusinessTransfer 1000 "600496" 4
        "600000" 4 "gg" "https://q" "https://r" "254708374149" cryptoOk
        worldTokThenAck0).trace =
      [authRequest mSand,
       b2bRequest mSand "tok" (b2b_data "testapi496" "cred"
         .BusinessToBusinessTransfer 4 4 1000 "600496" "600000" "254708374149"
         "gg" "https://q" "https://r")] := by
  have h := b2b_payload_fields "testapi496" "cred" .BusinessToBusinessTransfer
    4 4 1000 "600496" "600000" "254708374149" "gg" "https://q" "https://r"
  exact ⟨h.1,
    h.2.2.2.2.2.2.2.2.2.2.2.2.2.2.2.2 mSand cryptoOk worldTokThenAck0 "tok"
      rfl rfl⟩

/-- C4: for every input to account_balance, the serialized JSON body sets
IdentifierType to the fixed string "4" and CommandID to the AccountBalance
command identifier, alongside PartyA, Remarks, Initiator, SecurityCredential,
QueueTimeOutURL, ResultURL; an account_balance call whose credential
derivation and token exchange succeed POSTs exactly this body. -/
theorem account_balance_payload_fields (cred pa rem i qu ru : String) :
    jsonKeys (account_balance_data cred pa rem i qu ru) = accountBalanceKeys
    ∧ (jsonKeys (account_balance_data cred pa rem i qu ru)).Nodup
    ∧ jsonLookup "IdentifierType" (account_balance_data cred pa rem i qu ru)
        = some (.str "4")
    ∧ jsonLookup "CommandID" (account_balance_data cred pa rem i qu ru)
        = some (.str CommandId.AccountBalance.toString)
    ∧ CommandId.AccountBalance.toString = "AccountBalance"
    ∧ jsonLookup "PartyA" (account_balance_data cred pa rem i qu ru)
        = some (.str pa)
    ∧ jsonLookup "Remarks" (account_balance_data cred pa rem i qu ru)
        = some (.str rem)
    ∧ jsonLookup "Initiator" (account_balance_data cred pa rem i qu ru)
        = some (.str i)
    ∧ jsonLookup "SecurityCredential" (account_balance_data cred pa rem i qu ru)
        = some (.str cred)
    ∧ jsonLookup "QueueTimeOutURL" (account_balance_data cred pa rem i qu ru)
        = some (.str qu)
    ∧ jsonLookup "ResultURL" (account_balance_data cred pa rem i qu ru)
        = some (.str ru)
    ∧ (∀ (m : Mpesa) (crypto : Crypto) (world : World) (tok : String),
        crypto m.initiator_password m.environment = .ok cred →
        world (authRequest m) = tokenBody tok →
        (m.account_balance pa rem i qu ru crypto world).trace =
          [authRequest m,
           accountBalanceRequest m tok (account_balance_data cred pa rem i qu ru)]) := by
  refine ⟨by simp [account_balance_data, jsonKeys, accountBalanceKeys], ?_,
    rfl, rfl, rfl, rfl, rfl, rfl, rfl, rfl, rfl, ?_⟩
  · have h : jsonKeys (account_balance_data cred pa rem i qu ru)
        = accountBalanceKeys := by
      simp [account_balance_data, jsonKeys, accountBalanceKeys]
    rw [h]
    decide
  · intro m crypto world tok hc ha
    rw [account_balance_run m pa rem i qu ru crypto world cred tok hc ha]

/-- Witness for account_balance_payload_fields at concrete inputs. -/
theorem account_balance_payload_fields_witness :
    jsonLookup "IdentifierType"
      (account_balance_data "cred" "600496" "none" "collins" "https://q" "https://r")
      = some (.str "4")
    ∧ (mSand.account_balance "600496" "none" "collins" "https://q" "https://r"
        cryptoOk worldTokThenAck0).trace =
      [authRequest mSand,
       accountBalanceRequest mSand "tok"
         (account_balance_data "cred" "600496" "none" "collins" "https://q"
           "https://r")] := by
  have h := account_balance_payload_fields "cred" "600496" "none" "collins"
    "https://q" "https://r"
  exact ⟨h.2.2.1,
    h.2.2.2.2.2.2.2.2.2.2.2 mSand cryptoOk worldTokThenAck0 "tok" rfl rfl⟩

/-- C5: exactly the privileged operations b2c, b2b and account_balance derive
the security credential, and they derive it before issuing any HTTP request:
if derivation fails they return a crypto error with an empty request trace;
c2b_register and c2b_simulate never derive a credential (their outcome is
identical under any two credential backends). -/
theorem privileged_ops_derive_credential_first (m : Mpesa)
    (crypto crypto2 : Crypto) (world : World) (e : String)
    (i pa pb rem qu ru oc aref vu cu msisdn brn sc : String) (cid : CommandId)
    (amt sid rid : Nat) (rt : ResponseType) :
    (crypto m.initiator_password m.environment = .error e →
      (m.b2c i cid amt pa pb rem qu ru oc crypto world).result
          = .error (.crypto e)
      ∧ (m.b2c i cid amt pa pb rem qu ru oc crypto world).trace = []
      ∧ (m.b2b i cid amt pa sid pb rid rem qu ru aref crypto world).result
          = .error (.crypto e)
      ∧ (m.b2b i cid amt pa sid pb rid rem qu ru aref crypto world).trace = []
      ∧ (m.account_balance pa rem i qu ru crypto world).result
          = .error (.crypto e)
      ∧ (m.account_balance pa rem i qu ru crypto world).trace = [])
    ∧ m.c2b_register vu cu rt sc crypto world
        = m.c2b_register vu cu rt sc crypto2 world
    ∧ m.c2b_simulate cid amt msisdn brn sc crypto world
        = m.c2b_simulate cid amt msisdn brn sc crypto2 world := by
  refine ⟨fun hc => ?_, rfl, rfl⟩
  rw [b2c_cryptoFail m i cid amt pa pb rem qu ru oc crypto world e hc,
    b2b_cryptoFail m i cid amt pa sid pb rid rem qu ru aref crypto world e hc,
    account_balance_cryptoFail m pa rem i qu ru crypto world e hc]
  exact ⟨rfl, rfl, rfl, rfl, rfl, rfl⟩

/-- Witness for privileged_ops_derive_credential_first with a failing
credential backend. -/
theorem privileged_ops_derive_credential_first_witness :
    (mSand.b2c "i" .BusinessPayment 1 "pa" "pb" "r" "q" "u" "o" cryptoBroken
        worldTokThenAck0).result
      = .error (.crypto "certificate load failure")
    ∧ (mSand.b2c "i" .BusinessPayment 1 "pa" "pb" "r" "q" "u" "o" cryptoBroken
        worldTokThenAck0).trace = []
    ∧ mSand.c2b_register "v" "c" .Complete "600496" cryptoBroken worldTokThenAck0
        = mSand.c2b_register "v" "c" .Complete "600496" cryptoOk worldTokThenAck0 := by
  have h := privileged_ops_derive_credential_first mSand cryptoBroken cryptoOk
    worldTokThenAck0 "certificate load failure" "i" "pa" "pb" "r" "q" "u" "o"
    "aref" "v" "c" "msisdn" "brn" "600496" .BusinessPayment 1 4 4 .Complete
  exact ⟨(h.1 rfl).1, (h.1 rfl).2.1, h.2.1⟩

/-- C6: token acquisition issues exactly one GET to
`{base_url}/oauth/v1/generate?grant_type=client_credentials` with HTTP Basic
authentication from (client_key, client_secret), returns the access-token
field of the JSON body on success, and surfaces transport failure or a
malformed or token-less body as an error; the trace is that single request in
every case, so there is no internal retry, and the token is obtained anew on
each call (no cache exists in the client state). -/
theorem auth_single_get_token_exchange (m : Mpesa) (world : World) :
    (m.auth world).trace = [authRequest m]
    ∧ (authRequest m).method = .GET
    ∧ (authRequest m).url
        = m.environment.base_url ++ "/oauth/v1/generate?grant_type=client_credentials"
    ∧ (authRequest m).auth = .basic m.client_key m.client_secret
    ∧ (authRequest m).body = none
    ∧ (∀ t, world (authRequest m) = tokenBody t → (m.auth world).result = .ok t)
    ∧ (world (authRequest m) = .sendError →
        (m.auth world).result = .error .transport)
    ∧ (world (authRequest m) = .ok .malformed →
        (m.auth world).result = .error .deserialization)
    ∧ (∀ j, world (authRequest m) = .ok (.json j) →
        getStr "access_token" j = none →
        (m.auth world).result = .error .deserialization) := by
  refine ⟨auth_trace m world, rfl, rfl, rfl, rfl,
    fun t ht => auth_result_token m world t ht,
    fun hs => auth_result_sendError m world hs,
    fun hm => auth_result_malformed m world hm,
    fun j hj hg => ?_⟩
  unfold Mpesa.auth
  dsimp only
  rw [hj]
  simp [parseAuthResponse, hg]

/-- Witness for auth_single_get_token_exchange at concrete inputs. -/
theorem auth_single_get_token_exchange_witness :
    (mSand.auth worldTokThenAck0).trace = [authRequest mSand]
    ∧ (mSand.auth worldTokThenAck0).result = .ok "tok" := by
  have h := auth_single_get_token_exchange mSand worldTokThenAck0
  exact ⟨h.1, h.2.2.2.2.2.1 "tok" rfl⟩

/-- C7: a successfully parsed response is returned as Ok whatever its
application ResponseCode is: each parsing operation maps an acknowledgement
body with ResponseCode rc to an Ok record whose ResponseCode equals rc, with
no branch turning a rejected (non-zero) code into an error. -/
theorem response_code_passthrough (m : Mpesa) (crypto : Crypto) (world : World)
    (cred tok a o rc d : String)
    (i pa pb rem qu ru oc aref msisdn brn sc : String) (cid : CommandId)
    (amt sid rid : Nat)
    (hc : crypto m.initiator_password m.environment = .ok cred)
    (ha : world (authRequest m) = tokenBody tok) :
    (world (b2cRequest m tok (b2c_data i cred cid amt pa pb rem qu ru oc))
        = .ok (ackBody a o rc d) →
      (m.b2c i cid amt pa pb rem qu ru oc crypto world).result
        = .ok { ConversationID := a, OriginatorConversationID := o,
                ResponseCode := rc, ResponseDescription := d })
    ∧ (world (b2bRequest m tok (b2b_data i cred cid sid rid amt pa pb aref rem qu ru))
        = .ok (ackBody a o rc d) →
      (m.b2b i cid amt pa sid pb rid rem qu ru aref crypto world).result
        = .ok { ConversationID := a, OriginatorConversationID := o,
                ResponseCode := rc, ResponseDescription := d })
    ∧ (world (c2bSimulateRequest m tok (c2b_simulate_data cid amt msisdn brn sc))
        = .ok (ackBody a o rc d) →
      (m.c2b_simulate cid amt msisdn brn sc crypto world).result
        = .ok { ConversationID := a, OriginatorConversationID := o,
                ResponseCode := rc, ResponseDescription := d })
    ∧ (world (accountBalanceRequest m tok (account_balance_data cred pa rem i qu ru))
        = .ok (ackBody a o rc d) →
      (m.account_balance pa rem i qu ru crypto world).result
        = .ok { ConversationID := a, OriginatorConversationID := o,
                ResponseCode := rc, ResponseDescription := d }) := by
  refine ⟨fun hw => ?_, fun hw => ?_, fun hw => ?_, fun hw => ?_⟩
  · rw [b2c_run m i cid amt pa pb rem qu ru oc crypto world cred tok hc ha]
    dsimp only
    rw [hw]
    rfl
  · rw [b2b_run m i cid amt pa sid pb rid rem qu ru aref crypto world cred tok hc ha]
    dsimp only
    rw [hw]
    rfl
  · rw [c2b_simulate_run m cid amt msisdn brn sc crypto world tok ha]
    dsimp only
    rw [hw]
    rfl
  · rw [account_balance_run m pa rem i qu ru crypto world cred tok hc ha]
    dsimp only
    rw [hw]
    rfl

/-- Witness for response_code_passthrough: a rejected ResponseCode "1" and an
accepted "0" both come back as Ok with that code. -/
theorem response_code_passthrough_witness :
    (mSand.b2c "i" .BusinessPayment 1 "pa" "pb" "r" "q" "u" "o" cryptoOk
        worldTokThenAck1).result
      = .ok { ConversationID := "c1", OriginatorConversationID := "o1",
              ResponseCode := "1", ResponseDescription := "rejected" }
    ∧ (mSand.b2c "i" .BusinessPayment 1 "pa" "pb" "r" "q" "u" "o" cryptoOk
        worldTokThenAck0).result
      = .ok { ConversationID := "c1", OriginatorConversationID := "o1",
              ResponseCode := "0", ResponseDescription := "accepted" } := by
  refine ⟨?_, ?_⟩
  · exact (response_code_passthrough mSand cryptoOk worldTokThenAck1 "cred"
      "tok" "c1" "o1" "1" "rejected" "i" "pa" "pb" "r" "q" "u" "o" "aref"
      "msisdn" "brn" "sc" .BusinessPayment 1 4 4 rfl rfl).1 rfl
  · exact (response_code_passthrough mSand cryptoOk worldTokThenAck0 "cred"
      "tok" "c1" "o1" "0" "accepted" "i" "pa" "pb" "r" "q" "u" "o" "aref"
      "msisdn" "brn" "sc" .BusinessPayment 1 4 4 rfl rfl).1 rfl

/-- C8: security-credential derivation is deterministic: two clients with the
same initiator password and environment derive the identical encoded
credential (the derivation reads nothing else of the client). -/
theorem gen_security_credentials_deterministic (m1 m2 : Mpesa)
    (hp : m1.initiator_password = m2.initiator_password)
    (he : m1.environment = m2.environment) :
    m1.gen_security_credentials = m2.gen_security_credentials := by
  unfold Mpesa.gen_security_credentials
  rw [hp, he]

/-- Witness for gen_security_credentials_deterministic: two clients sharing
only (password, environment) derive the same credential. -/
theorem gen_security_credentials_deterministic_witness :
    (Mpesa.new "k1" "s1" .Sandbox "pw").gen_security_credentials
      = (Mpesa.new "k2" "s2" .Sandbox "pw").gen_security_credentials :=
  gen_security_credentials_deterministic (Mpesa.new "k1" "s1" .Sandbox "pw")
    (Mpesa.new "k2" "s2" .Sandbox "pw") rfl rfl

/-- C10: Mpesa::new stores the four supplied values verbatim (and, being a
plain constructor, cannot fail), and no public operation mutates them: the
client observed after any call equals the client at construction. -/
theorem client_identity_immutable (k s : String) (e : Environment) (p : String)
    (crypto : Crypto) (world : World)
    (i pa pb rem qu ru oc aref vu cu msisdn brn sc : String) (cid : CommandId)
    (amt sid rid : Nat) (rt : ResponseType) :
    (Mpesa.new k s e p).client_key = k
    ∧ (Mpesa.new k s e p).client_secret = s
    ∧ (Mpesa.new k s e p).environment = e
    ∧ (Mpesa.new k s e p).initiator_password = p
    ∧ ((Mpesa.new k s e p).auth world).self = Mpesa.new k s e p
    ∧ ((Mpesa.new k s e p).b2c i cid amt pa pb rem qu ru oc crypto world).self
        = Mpesa.new k s e p
    ∧ ((Mpesa.new k s e p).b2b i cid amt pa sid pb rid rem qu ru aref crypto
        world).self = Mpesa.new k s e p
    ∧ ((Mpesa.new k s e p).c2b_register vu cu rt sc crypto world).self
        = Mpesa.new k s e p
    ∧ ((Mpesa.new k s e p).c2b_simulate cid amt msisdn brn sc crypto world).self
        = Mpesa.new k s e p
    ∧ ((Mpesa.new k s e p).account_balance pa rem i qu ru crypto world).self
        = Mpesa.new k s e p :=
  ⟨rfl, rfl, rfl, rfl, auth_self (Mpesa.new k s e p) world,
   b2c_self (Mpesa.new k s e p) i cid amt pa pb rem qu ru oc crypto world,
   b2b_self (Mpesa.new k s e p) i cid amt pa sid pb rid rem qu ru aref crypto world,
   c2b_register_self (Mpesa.new k s e p) vu cu rt sc crypto world,
   c2b_simulate_self (Mpesa.new k s e p) cid amt msisdn brn sc crypto world,
   account_balance_self (Mpesa.new k s e p) pa rem i qu ru crypto world⟩

theorem parseAck_missing_field (j : Json)
    (h : getStr "ConversationID" j = none
      ∨ getStr "OriginatorConversationID" j = none
      ∨ getStr "ResponseCode" j = none
      ∨ getStr "ResponseDescription" j = none) :
    parseAck (.json j) = .error .deserialization := by
  unfold parseAck
  dsimp only
  cases h1 : getStr "ConversationID" j <;>
    cases h2 : getStr "OriginatorConversationID" j <;>
      cases h3 : getStr "ResponseCode" j <;>
        cases h4 : getStr "ResponseDescription" j <;>
          first
            | rfl
            | simp_all

/-- C1 counterexample: the claim says every operation turns a malformed
response body into a deserialization error and never a success value, but
c2b_register returns the raw HTTP response without parsing: with a valid
token exchange and a POST answered by a body that is not JSON, the call
succeeds, carrying the malformed body. -/
theorem c2b_register_success_on_malformed_body :
    (mSand.c2b_register "https://v" "https://c" .Complete "600496" cryptoOk
      worldTokThenMalformed).result = .ok .malformed := by
  rw [c2b_register_run mSand "https://v" "https://c" .Complete "600496"
    cryptoOk worldTokThenMalformed "tok" rfl]
  rfl

/-- C1 (amended): for the four operations that parse their response (b2c,
b2b, c2b_simulate, account_balance), a response body that is malformed JSON,
or JSON not matching the expected shape (any of the four expected string
fields missing, whichever it is), yields a deserialization error and never a
success value (and, the embedding being total, never a panic); c2b_register
does not parse: it returns whatever body arrived as a success. -/
theorem malformed_response_yields_deserialization_error (m : Mpesa)
    (crypto : Crypto) (world : World) (cred tok : String)
    (i pa pb rem qu ru oc aref vu cu msisdn brn sc : String) (cid : CommandId)
    (amt sid rid : Nat) (rt : ResponseType)
    (hc : crypto m.initiator_password m.environment = .ok cred)
    (ha : world (authRequest m) = tokenBody tok) :
    (world (b2cRequest m tok (b2c_data i cred cid amt pa pb rem qu ru oc))
        = .ok .malformed →
      (m.b2c i cid amt pa pb rem qu ru oc crypto world).result
        = .error .deserialization)
    ∧ (∀ j, world (b2cRequest m tok (b2c_data i cred cid amt pa pb rem qu ru oc))
        = .ok (.json j) →
      getStr "ConversationID" j = none
        ∨ getStr "OriginatorConversationID" j = none
        ∨ getStr "ResponseCode" j = none
        ∨ getStr "ResponseDescription" j = none →
      (m.b2c i cid amt pa pb rem qu ru oc crypto world).result
        = .error .deserialization)
    ∧ (world (b2bRequest m tok (b2b_data i cred cid sid rid amt pa pb aref rem qu ru))
        = .ok .malformed →
      (m.b2b i cid amt pa sid pb rid rem qu ru aref crypto world).result
        = .error .deserialization)
    ∧ (∀ j, world (b2bRequest m tok (b2b_data i cred cid sid rid amt pa pb aref rem qu ru))
        = .ok (.json j) →
      getStr "ConversationID" j = none
        ∨ getStr "OriginatorConversationID" j = none
        ∨ getStr "ResponseCode" j = none
        ∨ getStr "ResponseDescription" j = none →
      (m.b2b i cid amt pa sid pb rid rem qu ru aref crypto world).result
        = .error .deserialization)
    ∧ (world (c2bSimulateRequest m tok (c2b_simulate_data cid amt msisdn brn sc))
        = .ok .malformed →
      (m.c2b_simulate cid amt msisdn brn sc crypto world).result
        = .error .deserialization)
    ∧ (∀ j, world (c2bSimulateRequest m tok (c2b_simulate_data cid amt msisdn brn sc))
        = .ok (.json j) →
      getStr "ConversationID" j = none
        ∨ getStr "OriginatorConversationID" j = none
        ∨ getStr "ResponseCode" j = none
        ∨ getStr "ResponseDescription" j = none →
      (m.c2b_simulate cid amt msisdn brn sc crypto world).result
        = .error .deserialization)
    ∧ (world (accountBalanceRequest m tok (account_balance_data cred pa rem i qu ru))
        = .ok .malformed →
      (m.account_balance pa rem i qu ru crypto world).result
        = .error .deserialization)
    ∧ (∀ j, world (accountBalanceRequest m tok (account_balance_data cred pa rem i qu ru))
        = .ok (.json j) →
      getStr "ConversationID" j = none
        ∨ getStr "OriginatorConversationID" j = none
        ∨ getStr "ResponseCode" j = none
        ∨ getStr "ResponseDescription" j = none →
      (m.account_balance pa rem i qu ru crypto world).result
        = .error .deserialization)
    ∧ (∀ b, world (c2bRegisterRequest m tok (c2b_register_data vu cu rt sc))
        = .ok b →
      (m.c2b_register vu cu rt sc crypto world).result = .ok b) := by
  refine ⟨fun hw => ?_, fun j hw hg => ?_, fun hw => ?_, fun j hw hg => ?_,
    fun hw => ?_, fun j hw hg => ?_, fun hw => ?_, fun j hw hg => ?_,
    fun b hw => ?_⟩
  · rw [b2c_run m i cid amt pa pb rem qu ru oc crypto world cred tok hc ha]
    dsimp only
    rw [hw]
    rfl
  · rw [b2c_run m i cid amt pa pb rem qu ru oc crypto world cred tok hc ha]
    dsimp only
    rw [hw]
    simp [parseB2cResponse, parseAck_missing_field j hg]
  · rw [b2b_run m i cid amt pa sid pb rid rem qu ru aref crypto world cred tok hc ha]
    dsimp only
    rw [hw]
    rfl
  · rw [b2b_run m i cid amt pa sid pb rid rem qu ru aref crypto world cred tok hc ha]
    dsimp only
    rw [hw]
    simp [parseB2bResponse, parseAck_missing_field j hg]
  · rw [c2b_simulate_run m cid amt msisdn brn sc crypto world tok ha]
    dsimp only
    rw [hw]
    rfl
  · rw [c2b_simulate_run m cid amt msisdn brn sc crypto world tok ha]
    dsimp only
    rw [hw]
    simp [parseC2bSimulateResponse, parseAck_missing_field j hg]
  · rw [account_balance_run m pa rem i qu ru crypto world cred tok hc ha]
    dsimp only
    rw [hw]
    rfl
  · rw [account_balance_run m pa rem i qu ru crypto world cred tok hc ha]
    dsimp only
    rw [hw]
    simp [parseAccountBalanceResponse, parseAck_missing_field j hg]
  · rw [c2b_register_run m vu cu rt sc crypto world tok ha]
    dsimp only
    rw [hw]

/-- Witness for malformed_response_yields_deserialization_error: a POST body
that is not JSON makes b2c and c2b_simulate fail with a deserialization
error, and so does a JSON body that lacks the ResponseCode field. -/
theorem malformed_response_yields_deserialization_error_witness :
    (mSand.b2c "i" .BusinessPayment 1 "pa" "pb" "r" "q" "u" "o" cryptoOk
        worldTokThenMalformed).result = .error .deserialization
    ∧ (mSand.b2c "i" .BusinessPayment 1 "pa" "pb" "r" "q" "u" "o" cryptoOk
        worldTokThenNoCode).result = .error .deserialization
    ∧ (mSand.c2b_simulate .CustomerPayBillOnline 1 "254705583540" "123abc"
        "600496" cryptoOk worldTokThenMalformed).result
      = .error .deserialization := by
  have h := malformed_response_yields_deserialization_error mSand cryptoOk
    worldTokThenMalformed "cred" "tok" "i" "pa" "pb" "r" "q" "u" "o" "aref"
    "v" "c" "254705583540" "123abc" "600496" .CustomerPayBillOnline 1 4 4
    .Complete rfl rfl
  refine ⟨(malformed_response_yields_deserialization_error mSand cryptoOk
    worldTokThenMalformed "cred" "tok" "i" "pa" "pb" "r" "q" "u" "o" "aref"
    "v" "c" "254705583540" "123abc" "600496" .BusinessPayment 1 4 4
    .Complete rfl rfl).1 rfl, ?_, h.2.2.2.2.1 rfl⟩
  exact (malformed_response_yields_deserialization_error mSand cryptoOk
    worldTokThenNoCode "cred" "tok" "i" "pa" "pb" "r" "q" "u" "o" "aref"
    "v" "c" "254705583540" "123abc" "600496" .BusinessPayment 1 4 4
    .Complete rfl rfl).2.1
    (.obj [("ConversationID", .str "c1"),
      ("OriginatorConversationID", .str "o1"),
      ("ResponseDescription", .str "d")])
    rfl (Or.inr (Or.inr (Or.inl rfl)))

/-- C9: for every operation, two runs on clients that agree on everything but
the environment produce JSON bodies with identical key lists: the environment
never influences the payload field names (any body in any trace of an
operation has that operation's fixed key list). -/
theorem payload_keys_environment_independent (m1 m2 : Mpesa)
    (crypto1 crypto2 : Crypto) (world1 world2 : World)
    (i pa pb rem qu ru oc aref vu cu msisdn brn sc : String) (cid : CommandId)
    (amt sid rid : Nat) (rt : ResponseType)
    (hk : m1.client_key = m2.client_key)
    (hs : m1.client_secret = m2.client_secret)
    (hp : m1.initiator_password = m2.initiator_password) :
    (∀ r1 ∈ (m1.b2c i cid amt pa pb rem qu ru oc crypto1 world1).trace,
     ∀ r2 ∈ (m2.b2c i cid amt pa pb rem qu ru oc crypto2 world2).trace,
     ∀ b1 b2, r1.body = some b1 → r2.body = some b2 →
       jsonKeys b1 = jsonKeys b2)
    ∧ (∀ r1 ∈ (m1.b2b i cid amt pa sid pb rid rem qu ru aref crypto1 world1).trace,
       ∀ r2 ∈ (m2.b2b i cid amt pa sid pb rid rem qu ru aref crypto2 world2).trace,
       ∀ b1 b2, r1.body = some b1 → r2.body = some b2 →
         jsonKeys b1 = jsonKeys b2)
    ∧ (∀ r1 ∈ (m1.c2b_register vu cu rt sc crypto1 world1).trace,
       ∀ r2 ∈ (m2.c2b_register vu cu rt sc crypto2 world2).trace,
       ∀ b1 b2, r1.body = some b1 → r2.body = some b2 →
         jsonKeys b1 = jsonKeys b2)
    ∧ (∀ r1 ∈ (m1.c2b_simulate cid amt msisdn brn sc crypto1 world1).trace,
       ∀ r2 ∈ (m2.c2b_simulate cid amt msisdn brn sc crypto2 world2).trace,
       ∀ b1 b2, r1.body = some b1 → r2.body = some b2 →
         jsonKeys b1 = jsonKeys b2)
    ∧ (∀ r1 ∈ (m1.account_balance pa rem i qu ru crypto1 world1).trace,
       ∀ r2 ∈ (m2.account_balance pa rem i qu ru crypto2 world2).trace,
       ∀ b1 b2, r1.body = some b1 → r2.body = some b2 →
         jsonKeys b1 = jsonKeys b2) := by
  refine ⟨?_, ?_, ?_, ?_, ?_⟩
  · intro r1 h1 r2 h2 b1 b2 hb1 hb2
    rw [b2c_trace_body_keys m1 i cid amt pa pb rem qu ru oc crypto1 world1 r1 h1 b1 hb1,
      b2c_trace_body_keys m2 i cid amt pa pb rem qu ru oc crypto2 world2 r2 h2 b2 hb2]
  · intro r1 h1 r2 h2 b1 b2 hb1 hb2
    rw [b2b_trace_body_keys m1 i cid amt pa sid pb rid rem qu ru aref crypto1 world1 r1 h1 b1 hb1,
      b2b_trace_body_keys m2 i cid amt pa sid pb rid rem qu ru aref crypto2 world2 r2 h2 b2 hb2]
  · intro r1 h1 r2 h2 b1 b2 hb1 hb2
    rw [c2b_register_trace_body_keys m1 vu cu rt sc crypto1 world1 r1 h1 b1 hb1,
      c2b_register_trace_body_keys m2 vu cu rt sc crypto2 world2 r2 h2 b2 hb2]
  · intro r1 h1 r2 h2 b1 b2 hb1 hb2
    rw [c2b_simulate_trace_body_keys m1 cid amt msisdn brn sc crypto1 world1 r1 h1 b1 hb1,
      c2b_simulate_trace_body_keys m2 cid amt msisdn brn sc crypto2 world2 r2 h2 b2 hb2]
  · intro r1 h1 r2 h2 b1 b2 hb1 hb2
    rw [account_balance_trace_body_keys m1 pa rem i qu ru crypto1 world1 r1 h1 b1 hb1,
      account_balance_trace_body_keys m2 pa rem i qu ru crypto2 world2 r2 h2 b2 hb2]

/-- Witness for payload_keys_environment_independent: a sandbox run and a
production run of b2c (same key material, different environment) both POST a
body, and the two bodies have the same key list. -/
theorem payload_keys_environment_independent_witness :
    jsonKeys (b2c_data "i" "cred" .BusinessPayment 1 "pa" "pb" "r" "q" "u" "o")
      = jsonKeys (b2c_data "i" "cred" .BusinessPayment 1 "pa" "pb" "r" "q" "u" "o") := by
  have ht1 : (mSand.b2c "i" .BusinessPayment 1 "pa" "pb" "r" "q" "u" "o"
      cryptoOk worldTokThenAck0).trace =
      [authRequest mSand, b2cRequest mSand "tok"
        (b2c_data "i" "cred" .BusinessPayment 1 "pa" "pb" "r" "q" "u" "o")] := by
    rw [b2c_run mSand "i" .BusinessPayment 1 "pa" "pb" "r" "q" "u" "o"
      cryptoOk worldTokThenAck0 "cred" "tok" rfl rfl]
  have ht2 : (mProd.b2c "i" .BusinessPayment 1 "pa" "pb" "r" "q" "u" "o"
      cryptoOk worldTokThenAck0).trace =
      [authRequest mProd, b2cRequest mProd "tok"
        (b2c_data "i" "cred" .BusinessPayment 1 "pa" "pb" "r" "q" "u" "o")] := by
    rw [b2c_run mProd "i" .BusinessPayment 1 "pa" "pb" "r" "q" "u" "o"
      cryptoOk worldTokThenAck0 "cred" "tok" rfl rfl]
  have hm1 : b2cRequest mSand "tok"
      (b2c_data "i" "cred" .BusinessPayment 1 "pa" "pb" "r" "q" "u" "o")
      ∈ (mSand.b2c "i" .BusinessPayment 1 "pa" "pb" "r" "q" "u" "o" cryptoOk
        worldTokThenAck0).trace := by
    rw [ht1]
    simp
  have hm2 : b2cRequest mProd "tok"
      (b2c_data "i" "cred" .BusinessPayment 1 "pa" "pb" "r" "q" "u" "o")
      ∈ (mProd.b2c "i" .BusinessPayment 1 "pa" "pb" "r" "q" "u" "o" cryptoOk
        worldTokThenAck0).trace := by
    rw [ht2]
    simp
  exact (payload_keys_environment_independent mSand mProd cryptoOk cryptoOk
    worldTokThenAck0 worldTokThenAck0 "i" "pa" "pb" "r" "q" "u" "o" "aref"
    "v" "c" "msisdn" "brn" "sc" .BusinessPayment 1 4 4 .Complete
    rfl rfl rfl).1
    (b2cRequest mSand "tok"
      (b2c_data "i" "cred" .BusinessPayment 1 "pa" "pb" "r" "q" "u" "o")) hm1
    (b2cRequest mProd "tok"
      (b2c_data "i" "cred" .BusinessPayment 1 "pa" "pb" "r" "q" "u" "o")) hm2
    _ _ rfl rfl
